import Mathlib

/- Verification of the MRI form-filling application (src/app.py) against its
   natural-language specification.  The Python source is shallowly embedded:
   pure computations become Lean functions over ℚ (Python floats are treated
   as exact arithmetic), Python dicts become association lists, values that a
   form control can produce become an inductive type, and operations that may
   raise are threaded through Except. -/

namespace MriDoc

/-- Python values a form control can produce: strings from text inputs,
select boxes and text areas, booleans from checkboxes. -/
inductive PyVal where
  | str (s : String)
  | bool (b : Bool)
deriving DecidableEq

/-- Python built-in str() restricted to the values above: a string is
returned unchanged, a boolean prints as the literal word True or False. -/
def pyStr : PyVal → String
  | .str s => s
  | .bool b => if b then "True" else "False"

/-- Python substring test (needle in haystack), character-wise on the two
strings. -/
def pyIn (needle haystack : String) : Bool :=
  decide (needle.data <:+: haystack.data)

/-- A word token as returned by pdfplumber page.extract_words(): its text and
its bounding box x0, top, x1, bottom in top-down page coordinates. -/
structure Word where
  text : String
  x0 : ℚ
  top : ℚ
  x1 : ℚ
  bottom : ℚ
deriving DecidableEq

/-- A page of the opened document as seen by extract_labels_positions: its
height and the outcome of its page.extract_words() call, which may raise. -/
structure PlumberPage where
  height : ℚ
  words : Except String (List Word)

/-- A document opened by pdfplumber.open: its list of pages. -/
structure PlumberPdf where
  pages : List PlumberPage

/-- A label record appended by extract_labels_positions (app.py lines
70-77): stripped text, midpoints, the original bounding box, the page index
and the page height. -/
structure LabelRec where
  text : String
  x_mid : ℚ
  y_mid : ℚ
  x0 : ℚ
  x1 : ℚ
  top : ℚ
  bottom : ℚ
  page_num : Int
  page_height : ℚ
deriving DecidableEq

/-- Python str.strip() with no argument: whitespace removed from both ends
of the string. -/
def py_strip (s : String) : String :=
  ⟨((s.data.dropWhile Char.isWhitespace).reverse.dropWhile Char.isWhitespace).reverse⟩

/-- Shallow embedding of extract_labels_positions (app.py lines 49-78).  The
openRes argument is the outcome of pdfplumber.open(pdf_path); each page
carries the outcome of its extract_words() call.  The function body has no
try/except, so either failure propagates to the caller as an .error result.
A page index outside the page range returns the empty list before any word
extraction is attempted; the page access pdf.pages[page_no] is modelled with
getD, the range guard having already ensured the index is in bounds.  A word
is kept when its stripped text has at least min_chars characters. -/
def extract_labels_positions (openRes : Except String PlumberPdf)
    (page_no : Int) (min_chars : Nat) : Except String (List LabelRec) :=
  match openRes with
  | .error e => .error e
  | .ok pdf =>
    if page_no < 0 ∨ (pdf.pages.length : Int) ≤ page_no then
      .ok []
    else
      let page := pdf.pages.getD page_no.toNat ⟨0, .ok []⟩
      match page.words with
      | .error e => .error e
      | .ok ws =>
        .ok (ws.filterMap (fun w =>
          let text := py_strip w.text
          if min_chars ≤ text.length then
            some { text := text
                   x_mid := (w.x0 + w.x1) / 2
                   y_mid := page.height - (w.top + w.bottom) / 2
                   x0 := w.x0, x1 := w.x1, top := w.top, bottom := w.bottom
                   page_num := page_no
                   page_height := page.height }
          else none))

/-- Field dictionary returned by reader.get_fields(): field names mapped to
metadata; only the names matter to the application, so the metadata is
dropped. -/
abbrev AcroFields := List String

/-- The pdfrw PdfReader object as probed by try_get_acrofields: the outcome
of the reader.Root.AcroForm.Fields attribute access (line 39, value unused by
the source) and the outcome of reader.get_fields(), which may raise or return
None. -/
structure AcroReader where
  root_fields_probe : Except String (Option Unit)
  get_fields : Except String (Option AcroFields)

/-- Shallow embedding of try_get_acrofields (app.py lines 35-47): the outer
try/except returns None when opening the reader or the attribute probe
raises; the inner try/except returns None when get_fields raises; otherwise
the get_fields result (itself possibly None) is returned.  The function is
total: no failure escapes to the caller. -/
def try_get_acrofields (openRes : Except String AcroReader) : Option AcroFields :=
  match openRes with
  | .error _ => none
  | .ok r =>
    match r.root_fields_probe with
    | .error _ => none
    | .ok _ =>
      match r.get_fields with
      | .error _ => none
      | .ok fdict => fdict

/-- Python truthiness of the try_get_acrofields result (app.py line 170,
has_acro = bool(acro)): None and the empty dict are falsy. -/
def pyBoolFields : Option AcroFields → Bool
  | none => false
  | some l => !l.isEmpty

/-- The two form-building paths of the application. -/
inductive Route where
  | structural
  | layout
deriving DecidableEq

/-- Route selection (app.py lines 169-266): the native AcroForm path when
has_acro is truthy, the layout-extraction path otherwise. -/
def detect_route (openRes : Except String AcroReader) : Route :=
  if pyBoolFields (try_get_acrofields openRes) then .structural else .layout

/-- Kinds of input control the dynamic form builder can emit. -/
inductive InputKind where
  | dateText
  | plainText
  | genderSelect
  | checkbox
  | textArea
deriving DecidableEq

/-- Python any(k in low for k in kws). -/
def containsAny (kws : List String) (low : String) : Bool :=
  kws.any (fun k => pyIn k low)

/-- AcroForm-path input-type heuristics (app.py lines 192-202); lower models
Python str.lower, applied to the field name before matching.  Priority:
date words, then age/weight words, then gender words, then boolean words,
then a free-text area. -/
def acro_input_kind (lower : String → String) (name : String) : InputKind :=
  let low := lower name
  if pyIn "ημερομην" low || pyIn "date" low then .dateText
  else if pyIn "ηλικ" low || pyIn "age" low || pyIn "βάρος" low then .plainText
  else if pyIn "φύλο" low || pyIn "αρρεν" low || pyIn "θήλυ" low then .genderSelect
  else if pyIn "check" low || pyIn "agree" low || pyIn "ναι" low || pyIn "όχι" low then .checkbox
  else .textArea

/-- Boolean/checkbox keyword set of the label path (app.py line 242); the
last keyword is the private-use character U+F072. -/
def label_bool_kws : List String := ["ναι", "όχι", "check", "✔", "□", "\uf072"]

/-- Date keyword set of the label path (app.py line 244). -/
def label_date_kws : List String := ["ημερ", "date", "γενν"]

/-- Age/weight/height/phone keyword set of the label path (app.py line 246). -/
def label_num_kws : List String := ["ηλικ", "βάρος", "ύψος", "τηλ"]

/-- Label-path input-type heuristics (app.py lines 241-249): the
boolean/checkbox keyword set is tested first, then date words, then
age/weight/height/phone words; there is no gender branch; the fallback is a
free-text area. -/
def label_input_kind (lower : String → String) (label_text : String) : InputKind :=
  let low := lower label_text
  if containsAny label_bool_kws low then .checkbox
  else if containsAny label_date_kws low then .dateText
  else if containsAny label_num_kws low then .plainText
  else .textArea

/-- A field placement as stored in the placements mapping (app.py lines
258-265); create_overlay_pdf reads fontsize and align with .get defaults
(lines 116-117), so they are optional here. -/
structure Placement where
  field : String
  label : String
  x : ℚ
  y : ℚ
  fontsize : Option ℚ
  align : Option String
deriving DecidableEq

/-- One drawString call recorded from the overlay canvas: start position,
drawn text and font size. -/
structure DrawOp where
  x : ℚ
  y : ℚ
  text : String
  fontsize : ℚ
deriving DecidableEq

/-- Drawing of one placement inside create_overlay_pdf (app.py lines
110-127): the text is str(responses.get(field, "")) (the subsequent
is-None check of the source is unreachable, str never returns None), the
font size and alignment default to 11 and left, and the start x is shifted
left by half the rendered text width for center alignment and by the full
width for right alignment.  stringWidth models
c.stringWidth(text, "Helvetica", fontsize). -/
def draw_placement (stringWidth : String → ℚ → ℚ)
    (responses : List (String × PyVal)) (p : Placement) : DrawOp :=
  let text := match responses.lookup p.field with
    | some v => pyStr v
    | none => ""
  let fontsize := p.fontsize.getD 11
  let align := p.align.getD "left"
  if align = "center" then
    { x := p.x - stringWidth text fontsize / 2, y := p.y, text := text, fontsize := fontsize }
  else if align = "right" then
    { x := p.x - stringWidth text fontsize, y := p.y, text := text, fontsize := fontsize }
  else
    { x := p.x, y := p.y, text := text, fontsize := fontsize }

/-- The per-page placement loop of create_overlay_pdf (app.py line 110): one
drawString per placement registered on the page. -/
def draw_page (stringWidth : String → ℚ → ℚ)
    (responses : List (String × PyVal)) (ps : List Placement) : List DrawOp :=
  ps.map (draw_placement stringWidth responses)

/-- A page annotation as traversed by the AcroForm fill branch: its Subtype,
its field-name entry T (a PDF string of the form (name), absent when the
annotation carries none) and its value entry V. -/
structure Annot where
  subtype : String
  T : Option String
  V : Option String
deriving DecidableEq

/-- Python truthiness of annot.T: None and the empty string are falsy. -/
def pyTruthyT : Option String → Bool
  | none => false
  | some s => !(s == "")

/-- The slice annot.T[1:-1] extracting the field name from the PDF string
(name) (app.py line 301); Python slices strings by characters. -/
def annot_key (t : String) : String :=
  ⟨(t.data.drop 1).dropLast⟩

/-- Conversion of a submitted value for the AcroForm fill (app.py lines
303-305): booleans map to the literal words Yes/No, strings pass through the
f-string unchanged. -/
def struct_val : PyVal → String
  | .bool b => if b then "Yes" else "No"
  | .str s => s

/-- Fill of one annotation (app.py lines 300-306): a widget annotation whose
field name matches a submitted response gets V set to the converted response
enclosed in parentheses; every other annotation is untouched. -/
def fill_annot (responses : List (String × PyVal)) (a : Annot) : Annot :=
  if a.subtype == "/Widget" && pyTruthyT a.T then
    match responses.lookup (annot_key (a.T.getD "")) with
    | some v => { a with V := some ("(" ++ struct_val v ++ ")") }
    | none => a
  else a

/-- A template page as traversed by the fill loop: its annotation list when
the page has one (the hasattr(page, "Annots") guard, app.py line 298). -/
structure AcroPage where
  annots : Option (List Annot)
deriving DecidableEq

/-- The page/annotation loop of the AcroForm fill branch (app.py lines
297-306). -/
def fill_acro (responses : List (String × PyVal)) (pages : List AcroPage) : List AcroPage :=
  pages.map (fun pg =>
    match pg.annots with
    | none => pg
    | some as_ => { annots := some (as_.map (fill_annot responses)) })

/-- Output file name used by both the AcroForm fill branch (app.py line 307)
and create_overlay_pdf (line 137): the template file name prefixed with
filled_ (written under the output directory). -/
def filled_name (selected : String) : String := "filled_" ++ selected

/-- One submission step of the response ledger (app.py lines 279-285): if
the CSV does not yet exist it is created with exactly the new row, otherwise
the whole table is read, the new row appended, and the whole table
rewritten.  The state is None while the file does not exist. -/
def ledger_append {α : Type} (state : Option (List α)) (r : α) : List α :=
  match state with
  | some old => old ++ [r]
  | none => [r]

/-- The ledger after a sequence of submissions, starting from no file. -/
def ledger_run {α : Type} (rs : List α) : Option (List α) :=
  rs.foldl (fun st r => some (ledger_append st r)) none

/-- Outcome of PDF production at submission time: a structurally filled
file, an overlay-merged file, or a refusal (st.error) producing no file. -/
inductive PdfProduction where
  | structuralFile (name : String)
  | overlayFile (name : String)
  | refused
deriving DecidableEq

/-- PDF-production dispatch of the submission handler (app.py lines
294-318): the AcroForm branch writes filled_<selected>; without AcroForm
fields an empty placements dict refuses with an error message and produces
no file, otherwise create_overlay_pdf writes filled_<selected>. -/
def submission_pdf (has_acro : Bool) (placements : List (Nat × List Placement))
    (selected : String) : PdfProduction :=
  if has_acro then .structuralFile (filled_name selected)
  else if placements.isEmpty then .refused
  else .overlayFile (filled_name selected)

/-- Character data of a parenthesized string. -/
theorem paren_data (n : String) : ("(" ++ n ++ ")").data = '(' :: (n.data ++ [')']) := by
  simp [String.data_append]

/-- The slice T[1:-1] recovers the field name from its PDF-string form. -/
theorem annot_key_paren (n : String) : annot_key ("(" ++ n ++ ")") = n := by
  apply String.ext
  simp [annot_key, paren_data]

/-- A parenthesized field-name entry is truthy. -/
theorem pyTruthyT_paren (n : String) : pyTruthyT (some ("(" ++ n ++ ")")) = true := by
  have h : ("(" ++ n ++ ")") ≠ "" := by
    intro h
    have hd := congrArg String.data h
    rw [paren_data] at hd
    simp at hd
  simp [pyTruthyT, h]

/-- Claim C1: in structural mode, a widget annotation whose field name
matches a submitted response gets its value set to the stringified response
enclosed in parentheses, a boolean response being mapped to the literal word
Yes/No before parenthesization, and the output file is named
filled_<template name>. -/
theorem structural_fill_parenthesizes (rs : List (String × PyVal)) (a : Annot)
    (name : String) (v : PyVal)
    (hsub : a.subtype = "/Widget") (hT : a.T = some ("(" ++ name ++ ")"))
    (hv : rs.lookup name = some v) :
    (fill_annot rs a).V = some ("(" ++ struct_val v ++ ")") ∧
    (∀ b : Bool, struct_val (.bool b) = if b then "Yes" else "No") ∧
    (∀ s : String, struct_val (.str s) = s) ∧
    (∀ sel : String, filled_name sel = "filled_" ++ sel) := by
  refine ⟨?_, fun b => rfl, fun s => rfl, fun sel => rfl⟩
  simp [fill_annot, hsub, hT, pyTruthyT_paren, annot_key_paren, hv]

theorem structural_fill_parenthesizes_witness :
    (fill_annot [("F", PyVal.str "Ιωάννης")] ⟨"/Widget", some "(F)", none⟩).V
      = some "(Ιωάννης)" ∧
    (fill_annot [("G", PyVal.bool true)] ⟨"/Widget", some "(G)", none⟩).V
      = some "(Yes)" ∧
    (fill_annot [("H", PyVal.bool false)] ⟨"/Widget", some "(H)", none⟩).V
      = some "(No)" := by
  refine ⟨?_, ?_, ?_⟩
  · exact (structural_fill_parenthesizes [("F", PyVal.str "Ιωάννης")]
      ⟨"/Widget", some "(F)", none⟩ "F" (PyVal.str "Ιωάννης") rfl (by decide) (by decide)).1
  · exact (structural_fill_parenthesizes [("G", PyVal.bool true)]
      ⟨"/Widget", some "(G)", none⟩ "G" (PyVal.bool true) rfl (by decide) (by decide)).1
  · exact (structural_fill_parenthesizes [("H", PyVal.bool false)]
      ⟨"/Widget", some "(H)", none⟩ "H" (PyVal.bool false) rfl (by decide) (by decide)).1

/-- Claim C4: every probing failure of try_get_acrofields (unreadable file,
failing attribute access, failing or empty get_fields) yields a falsy
result, which routes the flow to the layout-extraction path; no failure is
surfaced. -/
theorem try_get_acrofields_failures (openRes : Except String AcroReader)
    (h : (∃ e, openRes = .error e) ∨
         (∃ r, openRes = .ok r ∧
            ((∃ e, r.root_fields_probe = .error e) ∨
             (∃ e, r.get_fields = .error e) ∨
             r.get_fields = .ok none ∨
             r.get_fields = .ok (some [])))) :
    pyBoolFields (try_get_acrofields openRes) = false ∧
    detect_route openRes = .layout := by
  have hb : pyBoolFields (try_get_acrofields openRes) = false := by
    rcases h with ⟨e, rfl⟩ | ⟨r, rfl, hr⟩
    · rfl
    · rcases hr with ⟨e, he⟩ | ⟨e, he⟩ | he | he <;>
        cases hp : r.root_fields_probe with
      | _ => simp_all [try_get_acrofields, pyBoolFields]
  exact ⟨hb, by simp [detect_route, hb]⟩

theorem try_get_acrofields_failures_witness :
    pyBoolFields (try_get_acrofields (.error "cannot open")) = false ∧
    detect_route (.error "cannot open") = Route.layout :=
  try_get_acrofields_failures _ (Or.inl ⟨"cannot open", rfl⟩)

/-- Folding further submissions onto an existing table appends them all. -/
theorem ledger_foldl_some {α : Type} (rs : List α) (init : List α) :
    rs.foldl (fun st r => some (ledger_append st r)) (some init) = some (init ++ rs) := by
  induction rs generalizing init with
  | nil => simp
  | cons r rs ih =>
    rw [List.foldl_cons]
    show List.foldl (fun st r => some (ledger_append st r)) (some (init ++ [r])) rs
        = some (init ++ r :: rs)
    rw [ih]
    simp

/-- Claim C6: the response ledger is append-only: starting from no log file,
a sequence of submissions produces a table holding exactly those rows in
submission order (the file is created by the first submission), so each
submission adds one row and leaves every earlier row unchanged. -/
theorem ledger_append_only {α : Type} (rs : List α) :
    ledger_run rs = if rs.isEmpty then none else some rs := by
  cases rs with
  | nil => rfl
  | cons r rs =>
    rw [ledger_run, List.foldl_cons]
    show List.foldl (fun st r => some (ledger_append st r)) (some [r]) rs
        = if (r :: rs).isEmpty then none else some (r :: rs)
    rw [ledger_foldl_some]
    simp

/-- Claim C7: a page index outside the template's page range (negative or at
or beyond the page count) makes label extraction return an empty list, not
an error. -/
theorem extract_labels_out_of_range (pdf : PlumberPdf) (page_no : Int) (min_chars : Nat)
    (h : page_no < 0 ∨ (pdf.pages.length : Int) ≤ page_no) :
    extract_labels_positions (.ok pdf) page_no min_chars = .ok [] := by
  simp only [extract_labels_positions]
  rw [if_pos h]

theorem extract_labels_out_of_range_witness :
    extract_labels_positions (.ok ⟨[⟨792, .ok []⟩]⟩) 5 3 = .ok [] ∧
    extract_labels_positions (.ok ⟨[⟨792, .ok []⟩]⟩) (-1) 3 = .ok [] :=
  ⟨extract_labels_out_of_range _ 5 3 (by decide),
   extract_labels_out_of_range _ (-1) 3 (by decide)⟩

/-- Claim C9: in overlay mode an empty placements store makes the submission
handler refuse (an operator-visible error with no output file) rather than
produce a PDF; a refusal is distinct from any produced file. -/
theorem overlay_refuses_empty (placements : List (Nat × List Placement)) (selected : String)
    (h : placements.isEmpty = true) :
    submission_pdf false placements selected = .refused ∧
    (∀ n : String, PdfProduction.refused ≠ .overlayFile n) ∧
    (∀ n : String, PdfProduction.refused ≠ .structuralFile n) := by
  refine ⟨?_, ?_, ?_⟩
  · simp [submission_pdf, h]
  · intro n h'
    exact PdfProduction.noConfusion h'
  · intro n h'
    exact PdfProduction.noConfusion h'

theorem overlay_refuses_empty_witness :
    submission_pdf false ([] : List (Nat × List Placement)) "form.pdf" = .refused :=
  (overlay_refuses_empty [] "form.pdf" rfl).1

/-- Claim C2: every label record returned by extract_labels_positions has
its horizontal midpoint equal to (x0 + x1) / 2 and its vertical midpoint
equal to page_height - (top + bottom) / 2, converting top-down extraction
coordinates to bottom-left-origin PDF coordinates. -/
theorem extract_labels_midpoints (openRes : Except String PlumberPdf)
    (page_no : Int) (min_chars : Nat) (labs : List LabelRec) (lab : LabelRec)
    (h : extract_labels_positions openRes page_no min_chars = .ok labs)
    (hmem : lab ∈ labs) :
    lab.x_mid = (lab.x0 + lab.x1) / 2 ∧
    lab.y_mid = lab.page_height - (lab.top + lab.bottom) / 2 := by
  cases openRes with
  | error e => exact absurd h (by simp [extract_labels_positions])
  | ok pdf =>
    simp only [extract_labels_positions] at h
    split at h
    · injection h with h
      subst h
      exact absurd hmem (List.not_mem_nil lab)
    · split at h
      · exact Except.noConfusion h
      · injection h with h
        subst h
        obtain ⟨w, hw, hsome⟩ := List.mem_filterMap.mp hmem
        split at hsome
        · injection hsome with hsome
          subst hsome
          exact ⟨rfl, rfl⟩
        · exact Option.noConfusion hsome

theorem extract_labels_midpoints_witness :
    extract_labels_positions (.ok ⟨[⟨792, .ok [⟨"abc", 10, 100, 30, 120⟩]⟩]⟩) 0 3
      = .ok [⟨"abc", 20, 682, 10, 30, 100, 120, 0, 792⟩] ∧
    (⟨"abc", 20, 682, 10, 30, 100, 120, 0, 792⟩ : LabelRec).x_mid
      = ((⟨"abc", 20, 682, 10, 30, 100, 120, 0, 792⟩ : LabelRec).x0
          + (⟨"abc", 20, 682, 10, 30, 100, 120, 0, 792⟩ : LabelRec).x1) / 2 ∧
    (⟨"abc", 20, 682, 10, 30, 100, 120, 0, 792⟩ : LabelRec).y_mid
      = (⟨"abc", 20, 682, 10, 30, 100, 120, 0, 792⟩ : LabelRec).page_height
          - ((⟨"abc", 20, 682, 10, 30, 100, 120, 0, 792⟩ : LabelRec).top
              + (⟨"abc", 20, 682, 10, 30, 100, 120, 0, 792⟩ : LabelRec).bottom) / 2 := by
  have hrun : extract_labels_positions (.ok ⟨[⟨792, .ok [⟨"abc", 10, 100, 30, 120⟩]⟩]⟩) 0 3
      = .ok [⟨"abc", 20, 682, 10, 30, 100, 120, 0, 792⟩] := by
    have h1 : ((10 : ℚ) + 30) / 2 = 20 := by norm_num
    have h2 : (792 : ℚ) - (100 + 120) / 2 = 682 := by norm_num
    have h3 : py_strip "abc" = "abc" := by decide
    calc extract_labels_positions (.ok ⟨[⟨792, .ok [⟨"abc", 10, 100, 30, 120⟩]⟩]⟩) 0 3
        = .ok [⟨py_strip "abc", ((10 : ℚ) + 30) / 2, (792 : ℚ) - (100 + 120) / 2,
            10, 30, 100, 120, 0, 792⟩] := rfl
      _ = .ok [⟨"abc", 20, 682, 10, 30, 100, 120, 0, 792⟩] := by rw [h1, h2, h3]
  have hmid := extract_labels_midpoints (.ok ⟨[⟨792, .ok [⟨"abc", 10, 100, 30, 120⟩]⟩]⟩) 0 3
      [⟨"abc", 20, 682, 10, 30, 100, 120, 0, 792⟩] ⟨"abc", 20, 682, 10, 30, 100, 120, 0, 792⟩
      hrun (by decide)
  exact ⟨hrun, hmid.1, hmid.2⟩

/-- Claim C8 counterexample: extraction failures are not swallowed; a
failing pdfplumber.open and a failing extract_words both surface as errors
to the caller instead of yielding an empty list. -/
theorem extract_labels_raises :
    extract_labels_positions (.error "cannot open") 0 3 ≠ .ok [] ∧
    extract_labels_positions (.error "cannot open") 0 3 = .error "cannot open" ∧
    extract_labels_positions (.ok ⟨[⟨792, .error "words failed"⟩]⟩) 0 3
      = .error "words failed" := by
  refine ⟨?_, by rfl, by rfl⟩
  intro h
  rw [show extract_labels_positions (.error "cannot open") 0 3
      = .error "cannot open" from rfl] at h
  exact Except.noConfusion h

/-- Claim C8 amended: an extraction failure while processing a page is not
swallowed but propagates to the caller: a failing pdfplumber.open propagates
its error, and a failing extract_words on an in-range page propagates its
error; only an out-of-range index or a page with no qualifying words yields
an empty list. -/
theorem extract_labels_propagates (e : String) (pdf : PlumberPdf)
    (page_no : Int) (min_chars : Nat)
    (hrange : ¬(page_no < 0 ∨ (pdf.pages.length : Int) ≤ page_no))
    (hwords : (pdf.pages.getD page_no.toNat ⟨0, .ok []⟩).words = .error e) :
    extract_labels_positions (.error e) page_no min_chars = .error e ∧
    extract_labels_positions (.ok pdf) page_no min_chars = .error e := by
  constructor
  · rfl
  · simp only [extract_labels_positions]
    rw [if_neg hrange]
    rw [hwords]

theorem extract_labels_propagates_witness :
    extract_labels_positions (.error "boom") 0 3 = .error "boom" ∧
    extract_labels_positions (.ok ⟨[⟨792, .error "boom"⟩]⟩) 0 3 = .error "boom" :=
  extract_labels_propagates "boom" ⟨[⟨792, .error "boom"⟩]⟩ 0 3 (by decide) rfl

/-- Claim C5: the drawn string of every placement honors the placement's
alignment: left draws at x, center draws at x minus half the rendered text
width, right draws at x minus the full rendered text width; the placement's
draw call is part of the page's draw list. -/
theorem overlay_alignment (sw : String → ℚ → ℚ) (rs : List (String × PyVal))
    (ps : List Placement) (p : Placement) (hp : p ∈ ps) :
    draw_placement sw rs p ∈ draw_page sw rs ps ∧
    (p.align = some "center" →
      (draw_placement sw rs p).x
        = p.x - sw (draw_placement sw rs p).text (draw_placement sw rs p).fontsize / 2) ∧
    (p.align = some "right" →
      (draw_placement sw rs p).x
        = p.x - sw (draw_placement sw rs p).text (draw_placement sw rs p).fontsize) ∧
    (p.align = some "left" → (draw_placement sw rs p).x = p.x) := by
  refine ⟨List.mem_map_of_mem _ hp, ?_, ?_, ?_⟩
  · intro h
    simp [draw_placement, h]
  · intro h
    simp [draw_placement, h]
  · intro h
    simp [draw_placement, h]

theorem overlay_alignment_witness :
    (draw_placement (fun s f => (s.length : ℚ) * f) [("F", PyVal.str "ABC")]
        ⟨"F", "lbl", 100, 200, none, some "center"⟩).x = 100 - 33 / 2 := by
  have h := (overlay_alignment (fun s f => (s.length : ℚ) * f) [("F", PyVal.str "ABC")]
      [⟨"F", "lbl", 100, 200, none, some "center"⟩]
      ⟨"F", "lbl", 100, 200, none, some "center"⟩ (List.mem_singleton_self _)).2.1 rfl
  exact h.trans (by norm_num [draw_placement, pyStr, show "ABC".length = 3 from rfl])

/-- Claim C10: in overlay mode the drawn text is Python str() of the
response looked up by field identifier with an empty-string default: a
missing response draws as the empty string, a boolean response draws as the
literal text True/False, and the structural-mode Yes/No conversion never
coincides with it. -/
theorem overlay_text_stringify (sw : String → ℚ → ℚ)
    (rs : List (String × PyVal)) (p : Placement) :
    ((draw_placement sw rs p).text
        = (match rs.lookup p.field with | some v => pyStr v | none => "")) ∧
    (rs.lookup p.field = none → (draw_placement sw rs p).text = "") ∧
    (∀ b : Bool, rs.lookup p.field = some (.bool b) →
        (draw_placement sw rs p).text = (if b then "True" else "False")) ∧
    (∀ b : Bool, pyStr (.bool b) ≠ struct_val (.bool b)) := by
  have htext : (draw_placement sw rs p).text
      = (match rs.lookup p.field with | some v => pyStr v | none => "") := by
    cases hl : rs.lookup p.field with
    | none =>
      simp only [draw_placement, hl]
      split_ifs <;> rfl
    | some v =>
      simp only [draw_placement, hl]
      split_ifs <;> rfl
  refine ⟨htext, ?_, ?_, ?_⟩
  · intro h
    rw [htext, h]
  · intro b h
    rw [htext, h]
    rfl
  · intro b
    cases b <;> decide

theorem overlay_text_stringify_witness :
    (draw_placement (fun s f => (s.length : ℚ) * f) []
        ⟨"F", "lbl", 0, 0, none, none⟩).text = "" ∧
    (draw_placement (fun s f => (s.length : ℚ) * f) [("G", PyVal.bool true)]
        ⟨"G", "lbl", 0, 0, none, none⟩).text = "True" ∧
    (draw_placement (fun s f => (s.length : ℚ) * f) [("H", PyVal.bool false)]
        ⟨"H", "lbl", 0, 0, none, none⟩).text = "False" := by
  refine ⟨?_, ?_, ?_⟩
  · exact (overlay_text_stringify (fun s f => (s.length : ℚ) * f) []
      ⟨"F", "lbl", 0, 0, none, none⟩).2.1 (by decide)
  · exact (overlay_text_stringify (fun s f => (s.length : ℚ) * f) [("G", PyVal.bool true)]
      ⟨"G", "lbl", 0, 0, none, none⟩).2.2.1 true (by decide)
  · exact (overlay_text_stringify (fun s f => (s.length : ℚ) * f) [("H", PyVal.bool false)]
      ⟨"H", "lbl", 0, 0, none, none⟩).2.2.1 false (by decide)

/-- Claim C3 counterexample: the label text (ναι date) contains the date
keyword date, so the claimed date-before-boolean priority would classify it
as a date input, but the label-path classifier tests the boolean keywords
first and yields a checkbox. -/
theorem label_kind_counterexample :
    pyIn "date" "ναι date" = true ∧
    label_input_kind (fun s => s) "ναι date" = InputKind.checkbox ∧
    InputKind.checkbox ≠ InputKind.dateText :=
  ⟨by decide, by decide, by decide⟩

/-- Claim C3 amended: the classifier works by case-insensitive substring
matching through the lowered text, but the two paths differ: the
AcroForm-path classifier checks date words, then age/weight words, then
gender words, then boolean words, and falls back to a multi-line free-text
input; the label-path classifier instead checks the boolean/checkbox words
first, then date words, then age/weight/height/phone words, has no gender
branch, and falls back to a multi-line free-text input. -/
theorem input_kind_priority (lower : String → String) (s : String) :
    ((pyIn "ημερομην" (lower s) || pyIn "date" (lower s)) = true →
      acro_input_kind lower s = .dateText) ∧
    ((pyIn "ημερομην" (lower s) || pyIn "date" (lower s)) = false →
     (pyIn "ηλικ" (lower s) || pyIn "age" (lower s) || pyIn "βάρος" (lower s)) = true →
      acro_input_kind lower s = .plainText) ∧
    ((pyIn "ημερομην" (lower s) || pyIn "date" (lower s)) = false →
     (pyIn "ηλικ" (lower s) || pyIn "age" (lower s) || pyIn "βάρος" (lower s)) = false →
     (pyIn "φύλο" (lower s) || pyIn "αρρεν" (lower s) || pyIn "θήλυ" (lower s)) = true →
      acro_input_kind lower s = .genderSelect) ∧
    ((pyIn "ημερομην" (lower s) || pyIn "date" (lower s)) = false →
     (pyIn "ηλικ" (lower s) || pyIn "age" (lower s) || pyIn "βάρος" (lower s)) = false →
     (pyIn "φύλο" (lower s) || pyIn "αρρεν" (lower s) || pyIn "θήλυ" (lower s)) = false →
     (pyIn "check" (lower s) || pyIn "agree" (lower s) || pyIn "ναι" (lower s)
        || pyIn "όχι" (lower s)) = true →
      acro_input_kind lower s = .checkbox) ∧
    ((pyIn "ημερομην" (lower s) || pyIn "date" (lower s)) = false →
     (pyIn "ηλικ" (lower s) || pyIn "age" (lower s) || pyIn "βάρος" (lower s)) = false →
     (pyIn "φύλο" (lower s) || pyIn "αρρεν" (lower s) || pyIn "θήλυ" (lower s)) = false →
     (pyIn "check" (lower s) || pyIn "agree" (lower s) || pyIn "ναι" (lower s)
        || pyIn "όχι" (lower s)) = false →
      acro_input_kind lower s = .textArea) ∧
    (containsAny label_bool_kws (lower s) = true →
      label_input_kind lower s = .checkbox) ∧
    (containsAny label_bool_kws (lower s) = false →
     containsAny label_date_kws (lower s) = true →
      label_input_kind lower s = .dateText) ∧
    (containsAny label_bool_kws (lower s) = false →
     containsAny label_date_kws (lower s) = false →
     containsAny label_num_kws (lower s) = true →
      label_input_kind lower s = .plainText) ∧
    (containsAny label_bool_kws (lower s) = false →
     containsAny label_date_kws (lower s) = false →
     containsAny label_num_kws (lower s) = false →
      label_input_kind lower s = .textArea) := by
  refine ⟨?_, ?_, ?_, ?_, ?_, ?_, ?_, ?_, ?_⟩ <;> intros <;>
    simp_all [acro_input_kind, label_input_kind]

theorem input_kind_priority_witness :
    acro_input_kind (fun s => s) "date" = InputKind.dateText ∧
    acro_input_kind (fun s => s) "qqq" = InputKind.textArea ∧
    label_input_kind (fun s => s) "ναι" = InputKind.checkbox ∧
    label_input_kind (fun s => s) "qqq" = InputKind.textArea := by
  refine ⟨?_, ?_, ?_, ?_⟩
  · exact (input_kind_priority (fun s => s) "date").1 (by decide)
  · exact (input_kind_priority (fun s => s) "qqq").2.2.2.2.1
      (by decide) (by decide) (by decide) (by decide)
  · exact (input_kind_priority (fun s => s) "ναι").2.2.2.2.2.1 (by decide)
  · exact (input_kind_priority (fun s => s) "qqq").2.2.2.2.2.2.2.2
      (by decide) (by decide) (by decide)

end MriDoc
